import Mathlib

/-!
Shallow embedding of the Nepal Kanun Patrika scraper
(src/Kanun_Patrika_Scrapper.py) and proofs about its era-aware
field-extraction engine, era-profile selection, persistence upsert and
pagination link collection.

Conventions of the embedding:
* a document "block" (an h1/p tag of the faisala_detail region, plus the li
  items of any directly following ul/ol) is a pair of its text and the list
  of its list-item texts;
* Python string truthiness becomes comparison with the empty string;
* Python substring containment (needle in hay) and str.startswith are
  re-implemented over char lists so every predicate is executable;
* Python list indexing tags[i] without a bounds guard is modelled with an
  Except monad whose error value stands for IndexError; every site of the
  source that guards the index first is modelled totally.
-/

namespace NKP

/-- Char-list version of str.startswith: does the first list begin with the
second one. -/
def listStarts : List Char → List Char → Bool
  | _, [] => true
  | [], _ :: _ => false
  | a :: as, b :: bs => a == b && listStarts as bs

/-- Char-list substring containment. -/
def hasSub : List Char → List Char → Bool
  | [], needle => needle.isEmpty
  | a :: t, needle => listStarts (a :: t) needle || hasSub t needle

/-- Python needle in hay (substring containment). -/
def strContains (hay needle : String) : Bool :=
  hasSub hay.data needle.data

/-- Python hay.startswith(pre). -/
def strStarts (hay pre : String) : Bool :=
  listStarts hay.data pre.data

/-- any(kw == text for kw in kws). -/
def anyEq (kws : List String) (text : String) : Bool :=
  kws.any (fun kw => kw == text)

/-- any(kw in text for kw in kws). -/
def anyContains (kws : List String) (text : String) : Bool :=
  kws.any (fun kw => strContains text kw)

/-- any(text.startswith(kw) for kw in kws). -/
def anyStarts (kws : List String) (text : String) : Bool :=
  kws.any (fun kw => strStarts text kw)

/-! Keyword dictionaries.  KEYWORDS_3, KEYWORDS_8, KEYWORDS_9, KEYWORDS_10
are byte-identical in all five era procedures; the suffix _15 marks the
variants private to scrape_case_details_2015_to_2044. -/

def KEYWORDS_2_15 : List String :=
  ["(प्रकरण नं", "(प्रकारण नं.", "९प्रकरण नं।", "(प्रकरण", "(प्र नं.", "( प्र. नं",
   "(प्र.नं", "(प्र. नं", "( प्रकरण नं.", "( प्रकरणन", "( प्र.नं.", "( प्र . नं .",
   "( प ्र . नं .", "(प्ररकण नं.", "(प्रकराण नं."]

def KEYWORDS_2 : List String :=
  ["प्रकरण नं.", "(प्रकरण नं", "(प्रकारण नं.", "९प्रकरण नं।", "(प्रकरण", "(प्र नं.",
   "( प्र. नं", "(प्र.नं", "(प्र. नं", "( प्रकरण नं.", "( प्रकरणन", "( प्र.नं.",
   "( प्र . नं .", "( प ्र . नं .", "(प्ररकण नं.", "(प्रकराण नं."]

def KEYWORDS_3 : List String :=
  ["निवेदक", "वादी", "पुनरावेदक", "निबेदक", "पुनरावदेक", "निवेदिका", "निवेदीका",
   "निवदेक", "न ि वेदक ः", "नि वेदक ः", "पुनरावेदन", "पुनरवेदिका", "पुनरावेदिका",
   "पुनरावेदीका", "बादि", "पुनराबेदक", "प्रतिबादी", "पुनरावेक", "अपीलाट", "निवेदनक",
   "उजुरवाला", "अपिलबाट", "अपिलाट"]

def KEYWORDS_4_15 : List String :=
  ["विपक्षी", "प्रतिवादी", "प्रत्यर्थी", "बिपक्षी", "विपक्षी ः", "पिपक्षी", "विरुद्ध",
   "प्रत्यार्थी", "विरूद्ध", "बिरूद्ध", "विपक्ष", "रेस्पोण्डेण्ट", "रेस्पोन्डेन्ट"]

def KEYWORDS_4 : List String :=
  ["विपक्षी", "प्रतिवादी", "प्रत्यर्थी", "बिपक्षी", "विपक्षी ः", "पिपक्षी",
   "प्रत्यार्थी", "विपक्ष", "रेस्पोण्डेण्ट", "रेस्पोन्डेन्ट", "प्रत्यथी"]

def KEYWORDS_5_15 : List String :=
  ["विषय", "मुद्दा", "बिषय", "मूद्दा", "मुद्द", "मद्दा", "विपक्ष", "मुद्धा"]

def KEYWORDS_5 : List String :=
  ["विषय", "मुद्दा", "बिषय", "मूद्दा", "मुद्द", "मद्दा", "विपक्ष", "मुद्धा", "मुद् दा"]

def KEYWORDS_6_15 : List String :=
  ["इजलास", "इजालास", "इजलाश", "बेञ्च"]

def KEYWORDS_6 : List String :=
  ["अदालत", "इजलास", "इजालास", "इजलाश", "बेञ्च"]

def KEYWORDS_7_15 : List String :=
  ["आदेश", "फैसला", "फैसलमा", "निर्णय", "फै सला"]

def KEYWORDS_7 : List String :=
  ["आदेश", "फैसला", "फैसलमा", "निर्णय", "फै सला", "मुद्दा"]

def KEYWORDS_8 : List String :=
  ["न्यायाधीश", "माननीय", "न्यायधीश", "न्यायाधीस", "न्ययाधीश", "न्यायाधिश",
   "न्यायाधी", "न्यानायधीश", "नयायाधीश", "न्यायाधधिश", "नयाधश"]

def KEYWORDS_9 : List String :=
  ["विरूद्ध", "बिरूद्ध", "विरुद्ध", "बिरुद्ध"]

def KEYWORDS_10 : List String :=
  ["AP", "FN", "RE", "RI", "LE", "RV", "NF", "CI", "CR", "RC", "SA", "MS",
   "ND", "RB", "CF", "DF", "RF", "WO", "WH", "WS", "WF", "WC", "CC", "EC"]

/-- text in ["फैसला", "आदेश", "फैसलाः"]: the exact holding-transition tokens
of the prakaran/tahar segmentation loop. -/
def isTok (t : String) : Bool :=
  t == "फैसला" || t == "आदेश" || t == "फैसलाः"

/-- One document block: the text of an h1/p tag together with the texts of
the li entries of any ul/ol immediately following it. -/
structure Blk where
  text : String
  lis : List String
deriving DecidableEq, Repr

/-- The trailing checkpoint discipline shared by every phase:
if ind >= n then ind = temp_ind_32 else temp_ind_32 = ind.
Returns the new (ind, temp_ind_32). -/
def sync (n ind ckpt : Nat) : Nat × Nat :=
  if ind ≥ n then (ckpt, ckpt) else (ind, ind)

/-- Line 1597: the same discipline in the third phase of
scrape_case_details_2073_to_2080_and_beyond, which tests ind > n instead
of ind >= n. -/
def sync73 (n ind ckpt : Nat) : Nat × Nat :=
  if ind > n then (ckpt, ckpt) else (ind, ind)

/-! ## Era profile selection (determine_scraper_method, lines 321-339) -/

/-- The five era-specific extraction procedures. -/
inductive Era where
  | e2015 | e2045 | e2051 | e2062 | e2073
deriving DecidableEq, Repr

/-- determine_scraper_method: latest is the current Nepali year
(nepali_datetime.date.today().year); none models the raised ValueError. -/
def determineScraperMethod (latest : Nat) (y : Nat) : Option Era :=
  if 2015 ≤ y ∧ y ≤ 2044 then some .e2015
  else if 2045 ≤ y ∧ y ≤ 2050 then some .e2045
  else if 2051 ≤ y ∧ y ≤ 2061 then some .e2051
  else if 2062 ≤ y ∧ y ≤ 2072 then some .e2062
  else if 2073 ≤ y ∧ y < latest then some .e2073
  else none

/-- The year range of each era as tested by determine_scraper_method. -/
def inEra (latest : Nat) : Era → Nat → Prop
  | .e2015, y => 2015 ≤ y ∧ y ≤ 2044
  | .e2045, y => 2045 ≤ y ∧ y ≤ 2050
  | .e2051, y => 2051 ≤ y ∧ y ≤ 2061
  | .e2062, y => 2062 ≤ y ∧ y ≤ 2072
  | .e2073, y => 2073 ≤ y ∧ y < latest

instance (latest : Nat) (e : Era) (y : Nat) : Decidable (inEra latest e y) := by
  cases e <;> simp only [inEra] <;> infer_instance

/-- scrape_case_details_generic (lines 341-348): route to the era procedure;
the ValueError from determine_scraper_method is caught, no procedure runs,
and False is returned.  The Option carries which procedure is invoked. -/
def scrape_case_details_generic (latest : Nat) (y : Nat) : Option Era :=
  determineScraperMethod latest y

/-! ## Persistence (save_to_sqlite, lines 1797-1818)

The cases table (create_tables, lines 45-68) declares लिङ्क TEXT UNIQUE and
save_to_sqlite writes with INSERT OR REPLACE keyed on that column: a
conflicting old row is deleted and the incoming row stored.  The table is
modelled as the list of its rows in storage order, a row as its link key
plus the remaining 16 inserted column values; the synthetic id and
created_at columns are outside the model. -/

structure CaseRow where
  link : String
  fields : List String
deriving DecidableEq, Repr

/-- save_to_sqlite: INSERT OR REPLACE on the UNIQUE लिङ्क column. -/
def save_to_sqlite (r : CaseRow) (db : List CaseRow) : List CaseRow :=
  db.filter (fun x => x.link ≠ r.link) ++ [r]

/-- The UNIQUE constraint on लिङ्क: links of stored rows are pairwise
distinct. -/
def linksUnique (db : List CaseRow) : Prop :=
  (db.map CaseRow.link).Nodup

/-! ## Pagination link collection (from_each_page, lines 234-252) -/

/-- The while loop of from_each_page.  An anchor element is represented by
its href attribute (none when the attribute is missing); the branch taken
for an href containing "#" peeks at the next element, appends its truthy
href, and resumes the loop at that same next element. -/
def fromEachPageLoop : List (Option String) → List String
  | [] => []
  | a :: rest =>
    match a with
    | some h =>
      if strContains h "#" then
        (match rest with
         | [] => []
         | b :: _ =>
           (match b with
            | some h2 => if h2 == "" then fromEachPageLoop rest
                         else h2 :: fromEachPageLoop rest
            | none => fromEachPageLoop rest))
      else fromEachPageLoop rest
    | none => fromEachPageLoop rest

/-- list(dict.fromkeys(li)) with the already-seen keys carried along:
deduplicate keeping first occurrences in order. -/
def pyDedupGo (seen : List String) : List String → List String
  | [] => []
  | x :: xs =>
    if x ∈ seen then pyDedupGo seen xs
    else x :: pyDedupGo (seen ++ [x]) xs

/-- list(dict.fromkeys(li)). -/
def pyDedup (l : List String) : List String := pyDedupGo [] l

/-- from_each_page: collect candidate links, then return them deduplicated
only when more than one was collected. -/
def from_each_page (links : List (Option String)) : List String :=
  let li := fromEachPageLoop links
  if li.length > 1 then pyDedup li else []

/-! ## Citation/holding segmentation

The prakaran/tahar loop at the tail of every era procedure (for the 2015
era, lines 552-600); identical across eras except for its KEYWORDS_2
vocabulary, passed as kw2.  State: the space-joined accumulator prev, the
prakaran (citation) list, the tahar (holding) list and the temp_flag_tahar
boolean. -/

structure SegState where
  prev : String
  prak : List String
  tahar : List String
  flag : Bool
deriving DecidableEq, Repr

/-- prev = prev + " " + text if prev else text. -/
def pjoin (prev t : String) : String :=
  if prev == "" then t else prev ++ " " ++ t

/-- The prev/prakarans update of one non-empty h1/p text (lines 563-575):
checked in source order - startswith a KEYWORDS_2 entry (flush prev, append
text, reset prev), contains the section sign, is an exact holding token
(append prev when prakarans is still empty); otherwise text is joined onto
prev. -/
def prakStep (kw2 : List String) (t : String) (prev : String) (prak : List String) :
    String × List String :=
  if strContains t "§" || anyStarts kw2 t || isTok t then
    let p1 : String × List String :=
      if anyStarts kw2 t then
        ("", (if prev == "" then prak else prak ++ [prev]) ++ [t])
      else (prev, prak)
    let p2 : String × List String :=
      if strContains t "§" then (p1.1, p1.2 ++ [t]) else p1
    if isTok t && p2.2.isEmpty then (p2.1, p2.2 ++ [p2.1]) else p2
  else (pjoin prev t, prak)

/-- One h1/p text through the segmentation loop body (lines 558-579): the
prev/prakarans update, then the tahar append when the text is an exact
holding token or the flag is already set. -/
def segMain (kw2 : List String) (t : String) (s : SegState) : SegState :=
  if t == "" then s
  else
    let pp := prakStep kw2 t s.prev s.prak
    if isTok t || s.flag then ⟨pp.1, pp.2, s.tahar ++ [t], true⟩
    else ⟨pp.1, pp.2, s.tahar, s.flag⟩

/-- The prev/prakarans update of one list item (lines 587-593): only the
KEYWORDS_2-startswith flush is recognized, everything else joins prev. -/
def liPrakStep (kw2 : List String) (t : String) (prev : String) (prak : List String) :
    String × List String :=
  if anyStarts kw2 t then
    ("", (if prev == "" then prak else prak ++ [prev]) ++ [t])
  else (pjoin prev t, prak)

/-- One list item through the segmentation loop (lines 584-596). -/
def segLi (kw2 : List String) (t : String) (s : SegState) : SegState :=
  if t == "" then s
  else
    let pp := liPrakStep kw2 t s.prev s.prak
    if isTok t || s.flag then ⟨pp.1, pp.2, s.tahar ++ [t], true⟩
    else ⟨pp.1, pp.2, s.tahar, s.flag⟩

/-- One block: its h1/p text, then its attached list items in order. -/
def segBlk (kw2 : List String) (b : Blk) (s : SegState) : SegState :=
  b.lis.foldl (fun s t => segLi kw2 t s) (segMain kw2 b.text s)

/-- The whole segmentation phase over the remaining blocks. -/
def segRun (kw2 : List String) (bs : List Blk) (s : SegState) : SegState :=
  bs.foldl (fun s b => segBlk kw2 b s) s

/-- The initial segmentation state (lines 553-556). -/
def segInit : SegState := ⟨"", [], [], false⟩

/-- The flattened item sequence of a block list: each h1/p text followed by
its list items, in document order. -/
def items (bs : List Blk) : List String :=
  (bs.map (fun b => b.text :: b.lis)).flatten

/-! ## Generic scan loops shared by the era procedures

Every while loop of the source walks tags from the current index ind to
the end; each is embedded as structural recursion over the remaining
suffix tags.drop ind, with ind passed along so the cursor arithmetic of
the source is preserved verbatim.  A lookahead at tags[ind + 1] becomes
the head of the remaining suffix. -/

/-- Scan forward for the first text passing hit (record it, stop after it);
a text passing stop first reverts the cursor to the checkpoint.  Reaching
the end leaves the cursor at n for the caller's sync.  Used for the
subject/order-date phases (e.g. 2015 era, lines 465-485 and 524-545). -/
def hitStopScan (hit stop : String → Bool) : List String → Nat → Nat → Option String × Nat
  | [], ind, _ => (none, ind)
  | t :: rest, ind, ckpt =>
    if hit t then (some t, ind + 1)
    else if stop t then (none, ckpt)
    else hitStopScan hit stop rest (ind + 1) ckpt

/-- Scan forward for the first text passing hit, with no stop condition. -/
def findScan (hit : String → Bool) : List String → Nat → Option String × Nat
  | [], ind => (none, ind)
  | t :: rest, ind =>
    if hit t then (some t, ind + 1)
    else findScan hit rest (ind + 1)

/-- Scan forward for the first non-empty text (2062 era lines 1284-1290,
2073 era lines 1611-1617). -/
def firstNonEmpty : List String → Nat → Option String × Nat
  | [], ind => (none, ind)
  | t :: rest, ind =>
    if t != "" then (some t, ind + 1)
    else firstNonEmpty rest (ind + 1)

/-- The petitioner/respondent scan without a bounds guard on the bare-label
lookahead (2015 era lines 492-517, 2045 era lines 772-799, 2062 era lines
1326-1353 and 1378-1404, 2073 era lines 1620-1641 and 1675-1700): a text
containing a keyword is the value, unless it equals a keyword exactly, in
which case the next tag's text is read - tags[ind] after ind += 1, raising
IndexError past the end - and recorded instead. -/
def partyScan (kws : List String) : List String → Nat → Except Unit (Option String × Nat)
  | [], ind => .ok (none, ind)
  | t :: rest, ind =>
    if anyContains kws t then
      if anyEq kws t then
        match rest with
        | [] => .error ()
        | t2 :: _ => .ok (some t2, ind + 2)
      else .ok (some t, ind + 1)
    else partyScan kws rest (ind + 1)

/-- The 2051-era petitioner/respondent scan (lines 1010-1037), identical to
partyScan except that the bare-label lookahead is bounds-checked: past the
end the label text itself stays the recorded value. -/
def partyScanChecked (kws : List String) : List String → Nat → Option String × Nat
  | [], ind => (none, ind)
  | t :: rest, ind =>
    if anyContains kws t then
      if anyEq kws t then
        match rest with
        | [] => (some t, ind + 2)
        | t2 :: _ => (some t2, ind + 2)
      else (some t, ind + 1)
    else partyScanChecked kws rest (ind + 1)

/-! ## The output record

The data dict built at the end of each era procedure keeps the scalar
details entries as strings defaulting to "N/A" and JSON-encodes the
list-valued ones; केस_नम्बर, निवेदक and विपक्षी may be either.  SV models
that string-or-list alternative. -/

inductive SV where
  | s (v : String)
  | l (vs : List String)
deriving DecidableEq, Repr

/-- The details-derived fields of the data dict (the extracted record). -/
structure Rec where
  court : String
  judges : List String
  orderDate : String
  caseNo : SV
  subject : String
  niwedak : SV
  wipakshi : SV
  prakaran : List String
  tahar : List String
deriving DecidableEq, Repr

/-- data field for a scalar details entry: details.get(key, "N/A"). -/
def getS (v : Option String) : String := v.getD "N/A"

/-- data field for केस_नम्बर / निवेदक / विपक्षी: the stored string or list,
defaulting to "N/A". -/
def getSV (v : Option SV) : SV := v.getD (.s "N/A")

/-! ## scrape_case_details_2015_to_2044 (details extraction, lines 388-600) -/

/-- "मिति" in text or "मिती" in text. -/
def hasMiti (t : String) : Bool :=
  strContains t "मिति" || strContains t "मिती"

/-- The order-date hit of the 2015 era (lines 478, 538): text starts with a
KEYWORDS_7 entry and mentions a date word. -/
def dateHit15 (t : String) : Bool :=
  anyStarts KEYWORDS_7_15 t && hasMiti t

/-- Court phase of the 2015 and 2062 eras (2015: lines 402-424; 2062:
lines 1186-1209, with KEYWORDS_6 passed for kw6).  tmp carries temp_ijlash.
An exact bench keyword records the previous text unless it mentions
"निर्णय नं."; a containing match records the text and concatenates the next
tag's text - read without a bounds guard - unless that looks like a judge
line; a judge line ends the phase recording the previous text under the
same "निर्णय नं." guard. -/
def courtScanA (kw6 : List String) : List String → Nat → String → Except Unit (Option String × Nat)
  | [], ind, _ => .ok (none, ind)
  | t :: rest, ind, tmp =>
    if t != "" then
      if anyEq kw6 t then
        .ok (if strContains tmp "निर्णय नं." then none else some tmp, ind + 1)
      else if anyContains kw6 t then
        match rest with
        | [] => .error ()
        | t2 :: _ =>
          if anyContains KEYWORDS_8 t2 then .ok (some t, ind + 1)
          else .ok (some (t ++ " " ++ t2), ind + 2)
      else if anyContains KEYWORDS_8 t then
        .ok (if strContains tmp "निर्णय नं." then none else some tmp, ind)
      else courtScanA kw6 rest (ind + 1) t
    else courtScanA kw6 rest (ind + 1) tmp

/-- Judges phase of the 2015 era (lines 431-444): accumulate judge lines;
the first non-empty non-judge text closes the phase, and is recorded as the
case number (consuming it) only when it contains no petitioner or subject
keyword.  Returns (judges assignment, case-number assignment, ind). -/
def judgesScan15 : List String → Nat → List String → Option (List String) × Option String × Nat
  | [], ind, _ => (none, none, ind)
  | t :: rest, ind, acc =>
    if t != "" then
      if anyContains KEYWORDS_8 t then judgesScan15 rest (ind + 1) (acc ++ [t])
      else if !(anyContains KEYWORDS_3 t) && !(anyContains KEYWORDS_5_15 t) then
        (some acc, some t, ind + 1)
      else (some acc, none, ind)
    else judgesScan15 rest (ind + 1) acc

/-- Subject-placement lookahead of the 2015 era (lines 452-462): a
non-consuming scan from temp_ind_64 that reports whether a subject keyword
is seen before any party keyword. -/
def bisayaScan15 : List String → Bool
  | [] => false
  | t :: rest =>
    if anyContains KEYWORDS_3 t || anyContains KEYWORDS_4_15 t then false
    else if anyContains KEYWORDS_5_15 t then true
    else bisayaScan15 rest

/-- The details portion of scrape_case_details_2015_to_2044 on the tag
sequence of the faisala_detail region. -/
def extract15 (bs : List Blk) : Except Unit Rec := do
  let tags := bs.map Blk.text
  let n := tags.length
  let (court?, i1) ← courtScanA KEYWORDS_6_15 tags 0 ""
  let (i1s, c1) := sync n i1 0
  let (jd?, cn?, i2) := judgesScan15 (tags.drop i1s) i1s []
  let (i2s, c2) := sync n i2 c1
  let bis := bisayaScan15 (tags.drop i2s)
  let (sd?, i3) :=
    if bis then
      hitStopScan (anyStarts KEYWORDS_5_15) (anyContains KEYWORDS_3) (tags.drop i2s) i2s c2
    else hitStopScan dateHit15 (anyContains KEYWORDS_3) (tags.drop i2s) i2s c2
  let (i3s, c3) := sync n i3 c2
  let (niw?, i4) ← partyScan KEYWORDS_3 (tags.drop i3s) i3s
  let (i4s, c4) := sync n i4 c3
  let (wip?, i5) ← partyScan KEYWORDS_4_15 (tags.drop i4s) i4s
  let (i5s, c5) := sync n i5 c4
  let (sd2?, i6) :=
    if !bis then
      hitStopScan (anyStarts KEYWORDS_5_15) (anyContains KEYWORDS_2_15) (tags.drop i5s) i5s c5
    else hitStopScan dateHit15 (anyContains KEYWORDS_2_15) (tags.drop i5s) i5s c5
  let (i6s, _c6) := sync n i6 c5
  let seg := segRun KEYWORDS_2_15 (bs.drop i6s) segInit
  .ok { court := getS court?, judges := jd?.getD [],
        orderDate := getS (if bis then sd2? else sd?),
        caseNo := getSV (cn?.map SV.s),
        subject := getS (if bis then sd? else sd2?),
        niwedak := getSV (niw?.map SV.s), wipakshi := getSV (wip?.map SV.s),
        prakaran := seg.prak, tahar := seg.tahar }

/-! ## scrape_case_details_2045_to_2050 (details extraction, lines 677-871) -/

/-- Court phase of the 2045 era (lines 693-710): an exact bench keyword
records the previous text, a containing match records the text itself (no
lookahead), a judge line records the previous text without consuming. -/
def courtScanB : List String → Nat → String → Option String × Nat
  | [], ind, _ => (none, ind)
  | t :: rest, ind, tmp =>
    if t != "" then
      if anyEq KEYWORDS_6 t then (some tmp, ind + 1)
      else if anyContains KEYWORDS_6 t then (some t, ind + 1)
      else if strContains t "न्यायाधीश" || strContains t "माननीय" then (some tmp, ind)
      else courtScanB rest (ind + 1) t
    else courtScanB rest (ind + 1) tmp

/-- Judges phase of the 2045 and 2051 eras (2045: lines 718-731; 2051:
lines 978-991): judge lines passing hitJ accumulate; a line passing hitD
records the judges list and the order date and closes the phase; any other
non-empty line overwrites the case-number entry and the scan continues.
Returns (judges assignment, order-date assignment, case-number assignment,
ind). -/
def judgesScanB (hitJ hitD : String → Bool) :
    List String → Nat → List String → Option String →
    Option (List String) × Option String × Option String × Nat
  | [], ind, _, cn => (none, none, cn, ind)
  | t :: rest, ind, acc, cn =>
    if t != "" then
      if hitJ t then judgesScanB hitJ hitD rest (ind + 1) (acc ++ [t]) cn
      else if hitD t then (some acc, some t, cn, ind + 1)
      else judgesScanB hitJ hitD rest (ind + 1) acc (some t)
    else judgesScanB hitJ hitD rest (ind + 1) acc cn

/-- "न्यायाधीश" in text or "माननीय" in text. -/
def hitJudge (t : String) : Bool :=
  strContains t "न्यायाधीश" || strContains t "माननीय"

/-- 2045-era order-date hit (line 724): a KEYWORDS_7 word co-occurring with
"मिति". -/
def hitDate45 (t : String) : Bool :=
  anyContains KEYWORDS_7 t && strContains t "मिति"

/-- 2051-era order-date hit (line 984). -/
def hitDate51 (t : String) : Bool :=
  (strContains t "आदेश" || strContains t "फैसला" || strContains t "फैसलमा" ||
   strContains t "निर्णय") && strContains t "मिति"

/-- Subject-placement lookahead of the 2045 era (lines 742-748), which -
unlike the 2015 era's - moves ind itself and relies on the following sync. -/
def bisayaMove45 : List String → Nat → Bool × Nat
  | [], ind => (false, ind)
  | t :: rest, ind =>
    if anyContains KEYWORDS_3 t || anyContains KEYWORDS_4 t then (false, ind)
    else if anyContains KEYWORDS_5 t then (true, ind)
    else bisayaMove45 rest (ind + 1)

/-- The details portion of scrape_case_details_2045_to_2050.  Line 740
presets details of विषय to the empty string before any scan. -/
def extract45 (bs : List Blk) : Except Unit Rec := do
  let tags := bs.map Blk.text
  let n := tags.length
  let (court?, i1) := courtScanB tags 0 ""
  let (i1s, c1) := sync n i1 0
  let (jd?, od?, cn?, i2) := judgesScanB hitJudge hitDate45 (tags.drop i1s) i1s [] none
  let (i2s, c2) := sync n i2 c1
  let (bis, i3) := bisayaMove45 (tags.drop i2s) i2s
  let (i3s, c3) := sync n i3 c2
  let (sub1?, i4s, c4) :=
    if bis then
      let (s?, i4) := findScan (anyContains KEYWORDS_5) (tags.drop i3s) i3s
      let (i4s, c4) := sync n i4 c3
      (s?, i4s, c4)
    else (none, i3s, c3)
  let (niw?, i5) ← partyScan KEYWORDS_3 (tags.drop i4s) i4s
  let (i5s, c5) := sync n i5 c4
  let (wip?, i6) ← partyScan KEYWORDS_4 (tags.drop i5s) i5s
  let (i6s, c6) := sync n i6 c5
  let (sub2?, i7s, _c7) :=
    if !bis then
      let (s?, i7) := findScan (anyContains KEYWORDS_5) (tags.drop i6s) i6s
      let (i7s, c7) := sync n i7 c6
      (s?, i7s, c7)
    else (none, i6s, c6)
  let seg := segRun KEYWORDS_2 (bs.drop i7s) segInit
  .ok { court := getS court?, judges := jd?.getD [], orderDate := getS od?,
        caseNo := getSV (cn?.map SV.s),
        subject := (sub1? <|> sub2?).getD "",
        niwedak := getSV (niw?.map SV.s), wipakshi := getSV (wip?.map SV.s),
        prakaran := seg.prak, tahar := seg.tahar }

/-! ## scrape_case_details_2051_to_2061 (details extraction, lines 948-1094) -/

/-- The details portion of scrape_case_details_2051_to_2061.  Every
unguarded index of the other eras is bounds-checked here, so the function
is total.  After the subject scan (lines 1007-1008) only the ind half of
the checkpoint discipline appears: temp_ind_32 is not advanced. -/
def extract51 (bs : List Blk) : Rec :=
  let tags := bs.map Blk.text
  let n := tags.length
  let (court?, i1) :=
    findScan (fun t => strContains t "इजलास" || strContains t "इजालास") tags 0
  let (i1s, c1) := sync n i1 0
  let (jd?, od?, cn?, i2) := judgesScanB hitJudge hitDate51 (tags.drop i1s) i1s [] none
  let (i2s, c2) := sync n i2 c1
  let (sub?, i3) :=
    findScan (fun t => strContains t "विषय" || strContains t "मुद्दा" ||
      strContains t "बिषय" || strContains t "मूद्दाः") (tags.drop i2s) i2s
  let i3s := if i3 ≥ n then c2 else i3
  let (niw?, i4) := partyScanChecked KEYWORDS_3 (tags.drop i3s) i3s
  let (i4s, c4) := sync n i4 c2
  let (wip?, i5) := partyScanChecked KEYWORDS_4 (tags.drop i4s) i4s
  let (i5s, _c5) := sync n i5 c4
  let seg := segRun KEYWORDS_2 (bs.drop i5s) segInit
  { court := getS court?, judges := jd?.getD [], orderDate := getS od?,
    caseNo := getSV (cn?.map SV.s), subject := getS sub?,
    niwedak := getSV (niw?.map SV.s), wipakshi := getSV (wip?.map SV.s),
    prakaran := seg.prak, tahar := seg.tahar }

/-! ## scrape_case_details_2062_to_2072 (details extraction, lines 1170-1462) -/

/-- 2062/2073-era order-date hit (lines 1228, 1269, 1571): text starts with
a KEYWORDS_7 entry and mentions a date word. -/
def dateHit7 (t : String) : Bool :=
  anyStarts KEYWORDS_7 t && hasMiti t

/-- Judges phase of the 2062 era (lines 1217-1242): judge lines accumulate;
the first non-empty non-judge line records the judges list and then either
the order date (setting faisla_miti_before_case_no), or the case number -
directly for a KEYWORDS_10 line, and for other label-free lines with a
lookahead past an exact "फैसला" read without a bounds guard.  Returns
(judges, order date, case number, faisla flag, ind). -/
def judgesScan62 : List String → Nat → List String →
    Except Unit (Option (List String) × Option String × Option String × Bool × Nat)
  | [], ind, _ => .ok (none, none, none, false, ind)
  | t :: rest, ind, acc =>
    if t != "" then
      if anyContains KEYWORDS_8 t then judgesScan62 rest (ind + 1) (acc ++ [t])
      else if dateHit7 t then .ok (some acc, some t, none, true, ind + 1)
      else if anyContains KEYWORDS_10 t then .ok (some acc, none, some t, false, ind)
      else if !(anyContains KEYWORDS_3 t) && !(anyContains KEYWORDS_5 t) then
        if t != "फैसला" then .ok (some acc, none, some t, false, ind + 1)
        else
          match rest with
          | [] => .error ()
          | t2 :: _ => .ok (some acc, none, some t2, false, ind + 2)
      else .ok (some acc, none, none, false, ind)
    else judgesScan62 rest (ind + 1) acc

/-- 2062-era phase after a found order date (lines 1252-1264): the first
non-empty text becomes the case number, unless it starts with a subject
keyword, which records it as the subject and sets subject_before_case_no.
Returns (case number, subject, subject flag, ind). -/
def afterDate62 : List String → Nat → Option String × Option String × Bool × Nat
  | [], ind => (none, none, false, ind)
  | t :: rest, ind =>
    if t != "" then
      if anyContains KEYWORDS_10 t then (some t, none, false, ind + 1)
      else if anyStarts KEYWORDS_5 t then (none, some t, true, ind + 1)
      else (some t, none, false, ind + 1)
    else afterDate62 rest (ind + 1)

/-- The stop condition of the 2062-era order-date scan (line 1273). -/
def stop62 (t : String) : Bool :=
  anyStarts KEYWORDS_2 t || isTok t

/-- The versus-marker count (lines 1310-1318): non-consuming scan from ind
counting texts exactly equal to a KEYWORDS_9 entry, up to the first text
starting with a KEYWORDS_2 entry (which is still counted first). -/
def countV : List String → Nat
  | [] => 0
  | t :: rest =>
    let c := if t != "" && anyEq KEYWORDS_9 t then 1 else 0
    if anyStarts KEYWORDS_2 t then c else c + countV rest

/-- The independent case-number collection of the multi-party branch
(lines 1362-1371): forward scan from index 0 appending every non-empty
text containing a KEYWORDS_10 code, stopping after the first text starting
with a KEYWORDS_2 entry or exactly equal to a KEYWORDS_7 entry. -/
def caseNoScan : List String → List String
  | [] => []
  | t :: rest =>
    if t != "" then
      let entry := if anyContains KEYWORDS_10 t then [t] else []
      if anyStarts KEYWORDS_2 t || anyEq KEYWORDS_7 t then entry
      else entry ++ caseNoScan rest
    else caseNoScan rest

/-- The repeating pair-collection sub-loop (lines 1325-1360): count_how_many
rounds of a petitioner scan and a respondent scan, each followed by the
checkpoint discipline.  Returns (appellants, oppositions, ind, checkpoint). -/
def multiLoop62 (tags : List String) :
    Nat → Nat → Nat → Except Unit (List String × List String × Nat × Nat)
  | 0, ind, ckpt => .ok ([], [], ind, ckpt)
  | c + 1, ind, ckpt =>
    match partyScan KEYWORDS_3 (tags.drop ind) ind with
    | .error e => .error e
    | .ok (a?, i1) =>
      let (i1s, c1) := sync tags.length i1 ckpt
      match partyScan KEYWORDS_4 (tags.drop i1s) i1s with
      | .error e => .error e
      | .ok (o?, i2) =>
        let (i2s, c2) := sync tags.length i2 c1
        match multiLoop62 tags c i2s c2 with
        | .error e => .error e
        | .ok (as, os, iF, cF) => .ok (a?.toList ++ as, o?.toList ++ os, iF, cF)

/-- The outcome of the petitioner/respondent phase of the 2062 era: either
the multi-party parallel lists or the scalar pair of assignments. -/
inductive PartyRes where
  | multi (caseNos appellants oppositions : List String)
  | single (niw wip : Option String)
deriving DecidableEq, Repr

/-- Petitioner/respondent phase of the 2062 era (lines 1309-1409): count
the versus-markers ahead; more than one enters the multi-party sub-loop
(with the independent case-number scan from the top), otherwise the two
scalar scans run, each with the checkpoint discipline. -/
def partyPhase62 (tags : List String) (ind ckpt : Nat) :
    Except Unit (PartyRes × Nat × Nat) :=
  if countV (tags.drop ind) > 1 then
    match multiLoop62 tags (countV (tags.drop ind)) ind ckpt with
    | .error e => .error e
    | .ok (as, os, i1, c1) => .ok (.multi (caseNoScan tags) as os, i1, c1)
  else
    match partyScan KEYWORDS_3 (tags.drop ind) ind with
    | .error e => .error e
    | .ok (a?, i1) =>
      let (i1s, c1) := sync tags.length i1 ckpt
      match partyScan KEYWORDS_4 (tags.drop i1s) i1s with
      | .error e => .error e
      | .ok (o?, i2) =>
        let (i2s, c2) := sync tags.length i2 c1
        .ok (.single a? o?, i2s, c2)

/-- The details portion of scrape_case_details_2062_to_2072. -/
def extract62 (bs : List Blk) : Except Unit Rec := do
  let tags := bs.map Blk.text
  let n := tags.length
  let (court?, i1) ← courtScanA KEYWORDS_6 tags 0 ""
  let (i1s, c1) := sync n i1 0
  let (jd?, od1?, cn1?, ffl, i2) ← judgesScan62 (tags.drop i1s) i1s []
  let (i2s, c2) := sync n i2 c1
  let (cn2?, sb1?, sfl, od2?, i3) :=
    if ffl then
      let (cn?, sb?, sf, i3) := afterDate62 (tags.drop i2s) i2s
      (cn?, sb?, sf, none, i3)
    else
      let (od?, i3) := hitStopScan dateHit7 stop62 (tags.drop i2s) i2s c2
      (none, none, false, od?, i3)
  let (i3s, c3) := sync n i3 c2
  let (cn3?, sb2?, i4) :=
    if sfl then
      let (cn?, i4) := firstNonEmpty (tags.drop i3s) i3s
      (cn?, none, i4)
    else
      let (sb?, i4) :=
        hitStopScan (anyStarts KEYWORDS_5) (anyContains KEYWORDS_3) (tags.drop i3s) i3s c3
      (none, sb?, i4)
  let (i4s, c4) := sync n i4 c3
  let (pr, i5s, _c5) ← partyPhase62 tags i4s c4
  let seg := segRun KEYWORDS_2 (bs.drop i5s) segInit
  let caseNo :=
    match pr with
    | .multi cs _ _ => SV.l cs
    | .single _ _ => getSV (((cn3? <|> cn2?) <|> cn1?).map SV.s)
  let (niw, wip) :=
    match pr with
    | .multi _ as os => (SV.l as, SV.l os)
    | .single a? o? => (getSV (a?.map SV.s), getSV (o?.map SV.s))
  .ok { court := getS court?, judges := jd?.getD [],
        orderDate := getS (od2? <|> od1?), caseNo := caseNo,
        subject := getS (sb2? <|> sb1?), niwedak := niw, wipakshi := wip,
        prakaran := seg.prak, tahar := seg.tahar }

/-! ## scrape_case_details_2073_to_2080_and_beyond (details extraction,
lines 1534-1758) -/

/-- Judges phase of the 2073 era (lines 1565-1576): the two tests are
independent ifs, so a judge line is accumulated and may in the same step
also close the phase as the order date. -/
def judgesScan73 : List String → Nat → List String →
    Option (List String) × Option String × Nat
  | [], ind, _ => (none, none, ind)
  | t :: rest, ind, acc =>
    if t != "" then
      let acc2 := if anyContains KEYWORDS_8 t then acc ++ [t] else acc
      if dateHit7 t then (some acc2, some t, ind + 1)
      else judgesScan73 rest (ind + 1) acc2
    else judgesScan73 rest (ind + 1) acc

/-- Third phase of the 2073 era (lines 1584-1595): the first non-empty
text either sets the subject (when it contains a subject keyword, setting
bisaya_before_kas_no and consuming it) or is recorded as the case number
without consuming.  Returns (bisaya flag, subject, case number, ind). -/
def caseDetails73 : List String → Nat → Bool × Option String × Option String × Nat
  | [], ind => (false, none, none, ind)
  | t :: rest, ind =>
    if t != "" then
      if anyContains KEYWORDS_5 t then (true, some t, none, ind + 1)
      else (false, none, some t, ind)
    else caseDetails73 rest (ind + 1)

/-- Third phase of the 2073 era together with its checkpoint discipline,
which tests ind > n (line 1597) instead of ind >= n.  Returns the phase
assignments and the (ind, temp_ind_32) pair left for the next phase. -/
def phase3run73 (tags : List String) (ind ckpt : Nat) :
    Bool × Option String × Option String × (Nat × Nat) :=
  let (b, sb?, cn?, i) := caseDetails73 (tags.drop ind) ind
  (b, sb?, cn?, sync73 tags.length i ckpt)

/-- End-of-group check of the 2073 multi-party loop (lines 1644-1654): scan
the remaining tags; a text containing a KEYWORDS_2 entry commits the
collected lists and ends the loop (true), an exact versus-marker starts
another group (false), running out also continues the loop (false). -/
def endCheck73 : List String → Bool
  | [] => false
  | t :: rest =>
    if anyContains KEYWORDS_2 t then true
    else if anyEq KEYWORDS_9 t then false
    else endCheck73 rest

/-- The 2073 multi-party loop (lines 1603-1654): while temp_flag and
ind < n, collect one case-number line, one petitioner and one respondent,
then run the end check; the three lists are committed to details only by a
successful end check.  The loop advances ind at least once per round, so
the fuel tags.length + 1 never runs out before ind reaches the end. -/
def multi73 (tags : List String) :
    Nat → Nat → List String → List String → List String →
    Except Unit (Option (List String × List String × List String) × Nat)
  | 0, ind, _, _, _ => .ok (none, ind)
  | fuel + 1, ind, cs, as, os =>
    if ind < tags.length then do
      let (c?, i1) := firstNonEmpty (tags.drop ind) ind
      let cs2 := cs ++ c?.toList
      let (a?, i2) ← partyScan KEYWORDS_3 (tags.drop i1) i1
      let as2 := as ++ a?.toList
      let (o?, i3) ← partyScan KEYWORDS_4 (tags.drop i2) i2
      let os2 := os ++ o?.toList
      if endCheck73 (tags.drop i3) then .ok (some (cs2, as2, os2), i3)
      else multi73 tags fuel i3 cs2 as2 os2
    else .ok (none, ind)

/-- The details portion of scrape_case_details_2073_to_2080_and_beyond. -/
def extract73 (bs : List Blk) : Except Unit Rec := do
  let tags := bs.map Blk.text
  let n := tags.length
  let (court?, i1) := findScan (anyContains KEYWORDS_6) tags 0
  let (i1s, c1) := sync n i1 0
  let (jd?, od?, i2) := judgesScan73 (tags.drop i1s) i1s []
  let (i2s, c2) := sync n i2 c1
  let (bis, sb1?, cn1?, p3) := phase3run73 tags i2s c2
  let (i3s, c3) := p3
  if bis then do
    let (grp?, i4) ← multi73 tags (n + 1) i3s [] [] []
    let (i4s, _c4) := sync n i4 c3
    let seg := segRun KEYWORDS_2 (bs.drop i4s) segInit
    let (caseNo, niw, wip) :=
      match grp? with
      | some (cs, as, os) => (SV.l cs, SV.l as, SV.l os)
      | none => (getSV (cn1?.map SV.s), SV.s "N/A", SV.s "N/A")
    .ok { court := getS court?, judges := jd?.getD [], orderDate := getS od?,
          caseNo := caseNo, subject := getS sb1?, niwedak := niw,
          wipakshi := wip, prakaran := seg.prak, tahar := seg.tahar }
  else do
    let (sb2?, i4) := findScan (anyContains KEYWORDS_5) (tags.drop i3s) i3s
    let (i4s, c4) := sync n i4 c3
    let (niw?, i5) ← partyScan KEYWORDS_3 (tags.drop i4s) i4s
    let (i5s, c5) := sync n i5 c4
    let (wip?, i6) ← partyScan KEYWORDS_4 (tags.drop i5s) i5s
    let (i6s, _c6) := sync n i6 c5
    let seg := segRun KEYWORDS_2 (bs.drop i6s) segInit
    .ok { court := getS court?, judges := jd?.getD [], orderDate := getS od?,
          caseNo := getSV (cn1?.map SV.s), subject := getS (sb2? <|> sb1?),
          niwedak := getSV (niw?.map SV.s), wipakshi := getSV (wip?.map SV.s),
          prakaran := seg.prak, tahar := seg.tahar }

/-- The flag/tahar component of one segmentation step, common to h1/p
texts and list items (lines 577-579, 594-596): a non-empty text is
appended to tahar, and the flag set, exactly when the text is an exact
holding token or the flag is already set. -/
def thStep (t : String) (p : Bool × List String) : Bool × List String :=
  if t == "" then p
  else if isTok t || p.1 then (true, p.2 ++ [t]) else p

/-! # Theorems -/

/-- C1.  The checkpoint-revert law fails in the third phase of
scrape_case_details_2073_to_2080_and_beyond: on the one-block document
whose only tag text is empty, the phase scans to the end without any
keyword match and records nothing, yet - because line 1597 tests ind > n
where every other phase tests ind >= n - the cursor and the checkpoint
both move from 0 to 1 instead of reverting to 0.  The last conjunct shows
that the ind >= n discipline used everywhere else would have reverted. -/
theorem c1_checkpoint_revert_violated_2073 :
    phase3run73 [""] 0 0 = (false, none, none, (1, 1)) ∧
    (1 : Nat) ≠ 0 ∧
    sync (List.length [""]) 1 0 = (0, 0) :=
  ⟨rfl, by decide, rfl⟩

/-- C2.  The claim that the engine never indexes out of bounds and at worst
yields an all-unknown record fails in scrape_case_details_2015_to_2044: on
the one-block document whose only text is the bare petitioner label
"निवेदक" (an exact KEYWORDS_3 entry), the bare-label branch at lines
495-497 advances past the label and reads tags[ind] past the end, raising
IndexError; the record is lost rather than saved with unknown fields. -/
theorem c2_bare_label_index_error_2015 :
    extract15 [⟨"निवेदक", []⟩] = Except.error () ∧
    anyEq KEYWORDS_3 "निवेदक" = true :=
  ⟨rfl, by decide⟩

/-- C3 counterexample.  On the empty block sequence the 2045-2050
procedure returns the subject field as the empty string - line 740 presets
details of विषय to "" before any scan - not as the "N/A" unknown sentinel
the claim requires for every field. -/
theorem c3_counterexample_era45_subject :
    extract45 [] =
      Except.ok ⟨"N/A", [], "N/A", .s "N/A", "", .s "N/A", .s "N/A", [], []⟩ ∧
    ("" : String) ≠ "N/A" :=
  ⟨rfl, by decide⟩

/-- C3 amended.  On the empty block sequence every era procedure returns
normally (no exception) with every field at its default - "N/A" for scalar
fields, the empty list for list fields - except that the 2045-2050
procedure returns the subject field as the empty string. -/
theorem c3_empty_sequence_amended :
    extract15 [] =
      Except.ok ⟨"N/A", [], "N/A", .s "N/A", "N/A", .s "N/A", .s "N/A", [], []⟩ ∧
    extract45 [] =
      Except.ok ⟨"N/A", [], "N/A", .s "N/A", "", .s "N/A", .s "N/A", [], []⟩ ∧
    extract51 [] = ⟨"N/A", [], "N/A", .s "N/A", "N/A", .s "N/A", .s "N/A", [], []⟩ ∧
    extract62 [] =
      Except.ok ⟨"N/A", [], "N/A", .s "N/A", "N/A", .s "N/A", .s "N/A", [], []⟩ ∧
    extract73 [] =
      Except.ok ⟨"N/A", [], "N/A", .s "N/A", "N/A", .s "N/A", .s "N/A", [], []⟩ :=
  ⟨rfl, rfl, rfl, rfl, rfl⟩

/-- C4.  determine_scraper_method selects exactly the era procedure whose
year range contains the year: each era is selected iff the year lies in its
range, the routing wrapper selects no procedure iff the year lies outside
all five ranges (the raised ValueError is caught and nothing is invoked),
and the five ranges are pairwise disjoint. -/
theorem c4_profile_selection (latest y : Nat) :
    (∀ e : Era, determineScraperMethod latest y = some e ↔ inEra latest e y) ∧
    (scrape_case_details_generic latest y = none ↔ ∀ e : Era, ¬ inEra latest e y) ∧
    (∀ e ee : Era, e ≠ ee → ¬ (inEra latest e y ∧ inEra latest ee y)) := by
  have h1 : ∀ e : Era, determineScraperMethod latest y = some e ↔ inEra latest e y := by
    intro e
    cases e <;>
      · simp only [determineScraperMethod, inEra]
        split_ifs <;> simp_all <;> omega
  refine ⟨h1, ?_, ?_⟩
  · constructor
    · intro hn e he
      rw [← h1 e] at he
      rw [scrape_case_details_generic] at hn
      rw [hn] at he
      exact Option.noConfusion he
    · intro he
      rw [scrape_case_details_generic]
      rcases hd : determineScraperMethod latest y with _ | e
      · rfl
      · exact absurd ((h1 e).mp hd) (he e)
  · intro e ee hne ⟨ha, hb⟩
    rw [← h1 e] at ha
    rw [← h1 ee] at hb
    rw [ha] at hb
    exact hne (Option.some.inj hb)

/-- C4 witness: with the current Nepali year 2083, the year 2020 selects
the 2015-2044 procedure, while 2014 (before all ranges) and 2083 (the
current year itself) select nothing. -/
theorem c4_profile_selection_witness :
    determineScraperMethod 2083 2020 = some Era.e2015 ∧
    scrape_case_details_generic 2083 2014 = none ∧
    scrape_case_details_generic 2083 2083 = none :=
  ⟨((c4_profile_selection 2083 2020).1 Era.e2015).mpr (by constructor <;> omega),
   (c4_profile_selection 2083 2014).2.1.mpr
     (by intro e; cases e <;> simp only [inEra] <;> omega),
   (c4_profile_selection 2083 2083).2.1.mpr
     (by intro e; cases e <;> simp only [inEra] <;> omega)⟩

/-- Each round of the 2062 multi-party sub-loop appends at most one
petitioner and at most one respondent, so a successful run of
count_how_many rounds yields lists no longer than the count. -/
theorem multiLoop62_len (tags : List String) :
    ∀ (c ind ckpt : Nat) (as os : List String) (iF cF : Nat),
      multiLoop62 tags c ind ckpt = .ok (as, os, iF, cF) →
      as.length ≤ c ∧ os.length ≤ c := by
  intro c
  induction c with
  | zero =>
    intro ind ckpt as os iF cF h
    simp only [multiLoop62, Except.ok.injEq, Prod.mk.injEq] at h
    obtain ⟨h1, h2, -⟩ := h
    subst h1; subst h2
    simp
  | succ c ih =>
    intro ind ckpt as os iF cF h
    simp only [multiLoop62] at h
    rcases hA : partyScan KEYWORDS_3 (tags.drop ind) ind with eA | ⟨a1, i1⟩ <;> rw [hA] at h
    · simp at h
    · dsimp only at h
      rcases hS1 : sync tags.length i1 ckpt with ⟨i1s, c1⟩
      rw [hS1] at h
      dsimp only at h
      rcases hB : partyScan KEYWORDS_4 (tags.drop i1s) i1s with eB | ⟨o1, i2⟩ <;> rw [hB] at h
      · simp at h
      · dsimp only at h
        rcases hS2 : sync tags.length i2 c1 with ⟨i2s, c2⟩
        rw [hS2] at h
        dsimp only at h
        rcases hC : multiLoop62 tags c i2s c2 with eC | ⟨as1, os1, iF1, cF1⟩ <;> rw [hC] at h
        · simp at h
        · dsimp only at h
          simp only [Except.ok.injEq, Prod.mk.injEq] at h
          obtain ⟨h1, h2, -⟩ := h
          subst h1; subst h2
          have hr := ih _ _ _ _ _ _ hC
          have ha : a1.toList.length ≤ 1 := by cases a1 <;> simp
          have ho : o1.toList.length ≤ 1 := by cases o1 <;> simp
          constructor <;> rw [List.length_append] <;> omega

/-- C5 counterexample.  A 2062-era sequence with two exact versus-markers
and two petitioner/respondent pairs but no recognized case-number code
token: the multi-party branch runs and the petitioner and respondent lists
have length 2, but the independently collected case-number list is empty,
so the three lists do not have equal length as the claim states. -/
theorem c5_counterexample_unequal_lengths :
    1 < countV ["विरूद्ध", "विरूद्ध", "निवेदक क", "विपक्षी ख", "निवेदक ग", "विपक्षी घ"] ∧
    partyPhase62 ["विरूद्ध", "विरूद्ध", "निवेदक क", "विपक्षी ख", "निवेदक ग", "विपक्षी घ"] 0 0 =
      .ok (.multi [] ["निवेदक क", "निवेदक ग"] ["विपक्षी ख", "विपक्षी घ"], 5, 5) ∧
    ([] : List String).length ≠ (["निवेदक क", "निवेदक ग"] : List String).length :=
  ⟨by decide, rfl, by decide⟩

/-- C5 amended.  In the 2062-era petitioner/respondent phase: with two or
more exact versus-markers before the first citation-marker-prefixed block,
a successful run yields array-valued case numbers, petitioners and
respondents, where the case numbers are exactly the independent forward
scan from the top of the document (stopping at the first citation-prefixed
or exact holding-keyword block) and the petitioner and respondent lists
each have at most one entry per counted marker - the three lists need not
have equal length; with at most one marker the result is the scalar pair
of assignments. -/
theorem c5_multi_party_amended (tags : List String) (ind ckpt : Nat)
    (res : PartyRes) (i c : Nat)
    (hrun : partyPhase62 tags ind ckpt = .ok (res, i, c)) :
    (1 < countV (tags.drop ind) →
      ∃ as os, res = .multi (caseNoScan tags) as os ∧
        as.length ≤ countV (tags.drop ind) ∧ os.length ≤ countV (tags.drop ind)) ∧
    (countV (tags.drop ind) ≤ 1 → ∃ a1 o1, res = .single a1 o1) := by
  constructor
  · intro hc
    unfold partyPhase62 at hrun
    rw [if_pos hc] at hrun
    rcases hM : multiLoop62 tags (countV (tags.drop ind)) ind ckpt with e | ⟨as, os, i1, c1⟩ <;>
      rw [hM] at hrun
    · simp at hrun
    · dsimp only at hrun
      simp only [Except.ok.injEq, Prod.mk.injEq] at hrun
      obtain ⟨hres, -⟩ := hrun
      have hlen := multiLoop62_len tags _ _ _ _ _ _ _ hM
      exact ⟨as, os, hres.symm, hlen.1, hlen.2⟩
  · intro hc
    unfold partyPhase62 at hrun
    rw [if_neg (by omega)] at hrun
    rcases hA : partyScan KEYWORDS_3 (tags.drop ind) ind with eA | ⟨a1, i1⟩ <;> rw [hA] at hrun
    · simp at hrun
    · dsimp only at hrun
      rcases hS1 : sync tags.length i1 ckpt with ⟨i1s, c1⟩
      rw [hS1] at hrun
      dsimp only at hrun
      rcases hB : partyScan KEYWORDS_4 (tags.drop i1s) i1s with eB | ⟨o1, i2⟩ <;> rw [hB] at hrun
      · simp at hrun
      · dsimp only at hrun
        rcases hS2 : sync tags.length i2 c1 with ⟨i2s, c2⟩
        rw [hS2] at hrun
        dsimp only at hrun
        simp only [Except.ok.injEq, Prod.mk.injEq] at hrun
        obtain ⟨hres, -⟩ := hrun
        exact ⟨a1, o1, hres.symm⟩

/-- C5 witness: the amended theorem applied to the concrete two-marker
document of the counterexample. -/
theorem c5_multi_party_amended_witness :
    ∃ as os,
      (PartyRes.multi [] ["निवेदक क", "निवेदक ग"] ["विपक्षी ख", "विपक्षी घ"]) =
        .multi (caseNoScan ["विरूद्ध", "विरूद्ध", "निवेदक क", "विपक्षी ख", "निवेदक ग", "विपक्षी घ"]) as os ∧
      as.length ≤
        countV (List.drop 0 ["विरूद्ध", "विरूद्ध", "निवेदक क", "विपक्षी ख", "निवेदक ग", "विपक्षी घ"]) ∧
      os.length ≤
        countV (List.drop 0 ["विरूद्ध", "विरूद्ध", "निवेदक क", "विपक्षी ख", "निवेदक ग", "विपक्षी घ"]) :=
  (c5_multi_party_amended
      ["विरूद्ध", "विरूद्ध", "निवेदक क", "विपक्षी ख", "निवेदक ग", "विपक्षी घ"] 0 0
      (.multi [] ["निवेदक क", "निवेदक ग"] ["विपक्षी ख", "विपक्षी घ"]) 5 5 rfl).1
    (by decide)

/-- C6.  The bare-label rule of the petitioner and respondent phases, for
both the unchecked scan (2015/2045/2062/2073 eras) and the bounds-checked
2051 scan: when the scan from the cursor first matches at a block that is
exactly equal to a keyword and a following block exists, the value
recorded is the following block's text and the cursor continues after the
consumed value block (label position + 2); when the first matching block
contains but does not equal a keyword, its own text is recorded and the
cursor continues right after it. -/
theorem c6_bare_label_rule (kws : List String) (pre rest : List String) (t v : String)
    (ind : Nat)
    (hpre : ∀ u ∈ pre, anyContains kws u = false)
    (hmatch : anyContains kws t = true) :
    (anyEq kws t = true →
      partyScan kws (pre ++ t :: v :: rest) ind = .ok (some v, ind + pre.length + 2) ∧
      partyScanChecked kws (pre ++ t :: v :: rest) ind = (some v, ind + pre.length + 2)) ∧
    (anyEq kws t = false →
      partyScan kws (pre ++ t :: rest) ind = .ok (some t, ind + pre.length + 1) ∧
      partyScanChecked kws (pre ++ t :: rest) ind = (some t, ind + pre.length + 1)) := by
  induction pre generalizing ind with
  | nil =>
    refine ⟨fun hEq => ⟨?_, ?_⟩, fun hEq => ⟨?_, ?_⟩⟩ <;>
      simp [partyScan, partyScanChecked, hmatch, hEq]
  | cons u pre ih =>
    have hu : anyContains kws u = false := hpre u (by simp)
    have hpre2 : ∀ w ∈ pre, anyContains kws w = false := fun w hw => hpre w (by simp [hw])
    have ihh := ih (ind + 1) hpre2
    refine ⟨fun hEq => ⟨?_, ?_⟩, fun hEq => ⟨?_, ?_⟩⟩
    · rw [List.cons_append]
      rw [show partyScan kws (u :: (pre ++ t :: v :: rest)) ind
            = partyScan kws (pre ++ t :: v :: rest) (ind + 1) by simp [partyScan, hu]]
      rw [(ihh.1 hEq).1]
      simp only [Except.ok.injEq, Prod.mk.injEq, List.length_cons]
      exact ⟨trivial, by omega⟩
    · rw [List.cons_append]
      rw [show partyScanChecked kws (u :: (pre ++ t :: v :: rest)) ind
            = partyScanChecked kws (pre ++ t :: v :: rest) (ind + 1) by
          simp [partyScanChecked, hu]]
      rw [(ihh.1 hEq).2]
      simp only [Prod.mk.injEq, List.length_cons]
      exact ⟨trivial, by omega⟩
    · rw [List.cons_append]
      rw [show partyScan kws (u :: (pre ++ t :: rest)) ind
            = partyScan kws (pre ++ t :: rest) (ind + 1) by simp [partyScan, hu]]
      rw [(ihh.2 hEq).1]
      simp only [Except.ok.injEq, Prod.mk.injEq, List.length_cons]
      exact ⟨trivial, by omega⟩
    · rw [List.cons_append]
      rw [show partyScanChecked kws (u :: (pre ++ t :: rest)) ind
            = partyScanChecked kws (pre ++ t :: rest) (ind + 1) by
          simp [partyScanChecked, hu]]
      rw [(ihh.2 hEq).2]
      simp only [Prod.mk.injEq, List.length_cons]
      exact ⟨trivial, by omega⟩

/-- C6 witness: after one non-matching block, the bare label "निवेदक"
consumes the following block "राम बहादुर" as the value, while the
containing line "निवेदक राम" is itself the value. -/
theorem c6_bare_label_rule_witness :
    (partyScan KEYWORDS_3 (["x"] ++ "निवेदक" :: "राम बहादुर" :: []) 0 =
       .ok (some "राम बहादुर", 0 + (["x"] : List String).length + 2)) ∧
    (partyScan KEYWORDS_3 (["x"] ++ "निवेदक राम" :: []) 0 =
       .ok (some "निवेदक राम", 0 + (["x"] : List String).length + 1)) :=
  ⟨((c6_bare_label_rule KEYWORDS_3 ["x"] [] "निवेदक" "राम बहादुर" 0
      (by decide) (by decide)).1 (by decide)).1,
   ((c6_bare_label_rule KEYWORDS_3 ["x"] [] "निवेदक राम" "v" 0
      (by decide) (by decide)).2 (by decide)).1⟩

/-- C7 counterexample.  In the 2015-era segmentation run on the two blocks
"A" then "x§y": the second block contains the citation marker, yet the
non-empty pending accumulator "A" is not flushed into the citations list -
citations are just ["x§y"] and "A" is still pending - contradicting the
claim's flush rule for marker-containing blocks. -/
theorem c7_counterexample_no_flush_on_section_sign :
    strContains "x§y" "§" = true ∧
    segRun KEYWORDS_2_15 [⟨"A", []⟩, ⟨"x§y", []⟩] segInit = ⟨"A", ["x§y"], [], false⟩ ∧
    "A" ∉ (segRun KEYWORDS_2_15 [⟨"A", []⟩, ⟨"x§y", []⟩] segInit).prak :=
  ⟨by decide, rfl, by decide⟩

/-- C7 amended.  In the citation/holding segmentation step: only a block
starting with a citation-marker prefix flushes the non-empty pending
accumulator into citations before appending itself; a block merely
containing the section-sign marker is appended as its own citation entry
without flushing, leaving pending untouched; an exact holding token
appends pending (even empty) only when citations is still empty, and
always starts the holding list; no non-empty text is dropped - every
non-empty h1/p text or list item lands in citations, in holding, or at
the tail of the pending accumulator. -/
theorem c7_segmenter_amended (kw2 : List String) (t : String) (s : SegState) :
    (t ≠ "" → anyStarts kw2 t = true → strContains t "§" = false → isTok t = false →
      s.prev ≠ "" →
      (segMain kw2 t s).prak = s.prak ++ [s.prev, t] ∧ (segMain kw2 t s).prev = "") ∧
    (t ≠ "" → strContains t "§" = true → anyStarts kw2 t = false → isTok t = false →
      (segMain kw2 t s).prak = s.prak ++ [t] ∧ (segMain kw2 t s).prev = s.prev) ∧
    (isTok t = true → anyStarts kw2 t = false → strContains t "§" = false →
      (segMain kw2 t s).prak = (if s.prak = [] then [s.prev] else s.prak) ∧
      (segMain kw2 t s).tahar = s.tahar ++ [t] ∧ (segMain kw2 t s).flag = true) ∧
    (t ≠ "" → t ∈ (segMain kw2 t s).prak ∨ t ∈ (segMain kw2 t s).tahar ∨
      t.data <:+ (segMain kw2 t s).prev.data) ∧
    (t ≠ "" → t ∈ (segLi kw2 t s).prak ∨ t ∈ (segLi kw2 t s).tahar ∨
      t.data <:+ (segLi kw2 t s).prev.data) := by
  refine ⟨?_, ?_, ?_, ?_, ?_⟩
  · intro h0 hS hC hT hP
    have hne : (t == "") = false := by simp [h0]
    have hpne : (s.prev == "") = false := by simp [hP]
    by_cases hf : s.flag <;>
      simp [segMain, prakStep, hne, hS, hC, hT, hpne, hf]
  · intro h0 hC hS hT
    have hne : (t == "") = false := by simp [h0]
    by_cases hf : s.flag <;>
      simp [segMain, prakStep, hne, hS, hC, hT, hf]
  · intro hT hS hC
    have h0 : t ≠ "" := by
      simp only [isTok, Bool.or_eq_true, beq_iff_eq] at hT
      rcases hT with (h | h) | h <;> subst h <;> decide
    have hne : (t == "") = false := by simp [h0]
    by_cases hpe : s.prak.isEmpty
    · have hnil : s.prak = [] := by simpa [List.isEmpty_iff] using hpe
      simp [segMain, prakStep, hne, hS, hC, hT, hpe, hnil]
    · have hnil : ¬ (s.prak = []) := by simpa [List.isEmpty_iff] using hpe
      simp [segMain, prakStep, hne, hS, hC, hT, hpe, hnil]
  · intro h0
    have hne : (t == "") = false := by simp [h0]
    by_cases hS : anyStarts kw2 t <;> by_cases hC : strContains t "§" <;>
      by_cases hT : isTok t <;> by_cases hf : s.flag <;> by_cases hp : s.prev == "" <;>
      simp [segMain, prakStep, pjoin, hne, hS, hC, hT, hf, hp, String.data_append] <;>
      first
        | exact List.suffix_append _ _
        | exact List.suffix_refl _
        | exact Or.inr (Or.inr ⟨s.prev.data ++ [' '], by simp⟩)
  · intro h0
    have hne : (t == "") = false := by simp [h0]
    by_cases hS : anyStarts kw2 t <;> by_cases hT : isTok t <;>
      by_cases hf : s.flag <;> by_cases hp : s.prev == "" <;>
      simp [segLi, liPrakStep, pjoin, hne, hS, hT, hf, hp, String.data_append] <;>
      first
        | exact List.suffix_append _ _
        | exact List.suffix_refl _
        | exact Or.inr (Or.inr ⟨s.prev.data ++ [' '], by simp⟩)

/-- C7 witness: the section-sign block of the counterexample appended as
its own citation entry with the pending accumulator "A" left in place. -/
theorem c7_segmenter_amended_witness :
    (segMain KEYWORDS_2_15 "x§y" ⟨"A", [], [], false⟩).prak = [] ++ ["x§y"] ∧
    (segMain KEYWORDS_2_15 "x§y" ⟨"A", [], [], false⟩).prev = "A" :=
  ((c7_segmenter_amended KEYWORDS_2_15 "x§y" ⟨"A", [], [], false⟩).2.1)
    (by decide) (by decide) (by decide) (by decide)

/-- The flag and tahar fields of an h1/p step factor through thStep. -/
theorem segMain_thStep (kw2 : List String) (t : String) (s : SegState) :
    ((segMain kw2 t s).flag, (segMain kw2 t s).tahar) = thStep t (s.flag, s.tahar) := by
  by_cases h0 : t == ""
  · simp [segMain, thStep, h0]
  · by_cases h1 : (isTok t || s.flag) = true
    · simp [segMain, thStep, h0, h1]
    · simp [segMain, thStep, h0, h1]

/-- The flag and tahar fields of a list-item step factor through thStep. -/
theorem segLi_thStep (kw2 : List String) (t : String) (s : SegState) :
    ((segLi kw2 t s).flag, (segLi kw2 t s).tahar) = thStep t (s.flag, s.tahar) := by
  by_cases h0 : t == ""
  · simp [segLi, thStep, h0]
  · by_cases h1 : (isTok t || s.flag) = true
    · simp [segLi, thStep, h0, h1]
    · simp [segLi, thStep, h0, h1]

/-- thStep factorization over a run of list items. -/
theorem segLis_thStep (kw2 : List String) (ts : List String) :
    ∀ s : SegState,
      ((ts.foldl (fun s t => segLi kw2 t s) s).flag,
       (ts.foldl (fun s t => segLi kw2 t s) s).tahar)
        = ts.foldl (fun p t => thStep t p) (s.flag, s.tahar) := by
  induction ts with
  | nil => intro s; rfl
  | cons t ts ih =>
    intro s
    simp only [List.foldl_cons]
    rw [ih (segLi kw2 t s), segLi_thStep]

/-- thStep factorization over the whole segmentation run, item by item. -/
theorem segRun_thStep (kw2 : List String) (bs : List Blk) :
    ∀ s : SegState,
      ((segRun kw2 bs s).flag, (segRun kw2 bs s).tahar)
        = (items bs).foldl (fun p t => thStep t p) (s.flag, s.tahar) := by
  induction bs with
  | nil => intro s; rfl
  | cons b bs ih =>
    intro s
    have hitems : items (b :: bs) = (b.text :: b.lis) ++ items bs := by
      simp [items]
    rw [hitems, List.foldl_append]
    rw [show segRun kw2 (b :: bs) s = segRun kw2 bs (segBlk kw2 b s) from rfl]
    rw [ih (segBlk kw2 b s)]
    congr 1
    rw [List.foldl_cons]
    rw [show segBlk kw2 b s
          = b.lis.foldl (fun s t => segLi kw2 t s) (segMain kw2 b.text s) from rfl]
    rw [segLis_thStep kw2 b.lis (segMain kw2 b.text s), segMain_thStep]

/-- Once the holding flag is set, every later non-empty item lands in
tahar. -/
theorem thFold_true (ts : List String) :
    ∀ th : List String,
      ts.foldl (fun p t => thStep t p) (true, th)
        = (true, th ++ ts.filter (fun t => t != "")) := by
  induction ts with
  | nil => intro th; simp
  | cons t ts ih =>
    intro th
    rw [List.foldl_cons, List.filter_cons]
    by_cases h0 : t == ""
    · rw [show thStep t (true, th) = (true, th) by simp [thStep, h0]]
      rw [ih th]
      have hb : (t != "") = false := by simp [bne, h0]
      rw [hb]
      simp
    · rw [show thStep t (true, th) = (true, th ++ [t]) by simp [thStep, h0]]
      rw [ih (th ++ [t])]
      have hb : (t != "") = true := by simp [bne, h0]
      rw [hb]
      simp

/-- Before the holding flag is set, items accumulate into tahar exactly
from the first exact holding token on. -/
theorem thFold_false (ts : List String) :
    ∀ th : List String,
      ts.foldl (fun p t => thStep t p) (false, th)
        = (!((ts.dropWhile (fun t => !(isTok t))).isEmpty),
           th ++ (ts.dropWhile (fun t => !(isTok t))).filter (fun t => t != "")) := by
  induction ts with
  | nil => intro th; simp
  | cons t ts ih =>
    intro th
    rw [List.foldl_cons, List.dropWhile_cons]
    by_cases hT : isTok t
    · have h0 : t ≠ "" := by
        simp only [isTok, Bool.or_eq_true, beq_iff_eq] at hT
        rcases hT with (h | h) | h <;> subst h <;> decide
      have hne : (t == "") = false := by simp [h0]
      have hb : (t != "") = true := by simp [bne, hne]
      rw [show thStep t (false, th) = (true, th ++ [t]) by simp [thStep, hne, hT]]
      rw [thFold_true ts (th ++ [t])]
      rw [show (!isTok t) = false by simp [hT]]
      simp only [if_false, Bool.false_eq_true, ite_false, List.isEmpty_cons,
        List.filter_cons, hb, if_true]
      simp
    · have hTf : isTok t = false := by simpa using hT
      have hd : (!isTok t) = true := by simp [hTf]
      rw [hd]
      simp only [if_true]
      by_cases h0 : t == ""
      · rw [show thStep t (false, th) = (false, th) by simp [thStep, h0]]
        exact ih th
      · rw [show thStep t (false, th) = (false, th) by simp [thStep, h0, hTf]]
        exact ih th

/-- C8.  Holding-overlap temporal property of the segmentation phase: the
holding (tahar) output is exactly the non-empty items of the flattened
block/list-item sequence from the first exact holding-transition token
onwards (that token included) - so once the token is encountered every
subsequent non-empty item appears in holding, and no item visited before
it ever does; in particular without a token the holding list is empty. -/
theorem c8_holding_overlap (kw2 : List String) (bs : List Blk) :
    (segRun kw2 bs segInit).tahar =
      ((items bs).dropWhile (fun t => !(isTok t))).filter (fun t => t != "") := by
  have h := segRun_thStep kw2 bs segInit
  rw [show ((segInit.flag, segInit.tahar) : Bool × List String) = (false, []) from rfl] at h
  rw [thFold_false] at h
  have h2 := congrArg Prod.snd h
  simpa using h2

/-- C9.  save_to_sqlite is idempotent: writing the same row twice leaves
the cases table exactly as after the first write, and the UNIQUE लिङ्क
constraint is preserved, so no duplicate row for the same link ever
appears. -/
theorem c9_upsert_idempotent (r : CaseRow) (db : List CaseRow) :
    save_to_sqlite r (save_to_sqlite r db) = save_to_sqlite r db ∧
    (linksUnique db → linksUnique (save_to_sqlite r db)) := by
  constructor
  · unfold save_to_sqlite
    rw [List.filter_append, List.filter_filter]
    simp
  · intro h
    unfold linksUnique save_to_sqlite at *
    rw [List.map_append]
    refine List.Nodup.append ?_ (by simp) ?_
    · exact h.sublist ((List.filter_sublist db).map CaseRow.link)
    · intro a ha hb
      simp only [List.map_cons, List.map_nil, List.mem_singleton] at hb
      subst hb
      simp only [List.mem_map, List.mem_filter] at ha
      obtain ⟨x, ⟨_, hx⟩, hlink⟩ := ha
      simp only [decide_eq_true_eq] at hx
      exact hx hlink

/-- C9 witness. -/
theorem c9_upsert_idempotent_witness :
    (save_to_sqlite ⟨"L", ["a"]⟩ (save_to_sqlite ⟨"L", ["a"]⟩ [⟨"M", ["b"]⟩]) =
      save_to_sqlite ⟨"L", ["a"]⟩ [⟨"M", ["b"]⟩]) ∧
    linksUnique [⟨"M", ["b"]⟩] ∧
    linksUnique (save_to_sqlite ⟨"L", ["a"]⟩ [⟨"M", ["b"]⟩]) :=
  ⟨(c9_upsert_idempotent ⟨"L", ["a"]⟩ [⟨"M", ["b"]⟩]).1,
   by unfold linksUnique; decide,
   (c9_upsert_idempotent ⟨"L", ["a"]⟩ [⟨"M", ["b"]⟩]).2 (by unfold linksUnique; decide)⟩

/-- C10.  from_each_page discards its collected candidate links whenever at
most one was collected - in particular a results page listing exactly one
case yields nothing - and only with two or more collected candidates
returns them, deduplicated with first occurrences kept in order. -/
theorem c10_single_result_discarded (links : List (Option String)) :
    ((fromEachPageLoop links).length ≤ 1 → from_each_page links = []) ∧
    (1 < (fromEachPageLoop links).length →
      from_each_page links = pyDedup (fromEachPageLoop links)) := by
  refine ⟨fun h => ?_, fun h => ?_⟩
  · simp only [from_each_page]
    rw [if_neg]
    omega
  · simp only [from_each_page]
    rw [if_pos h]

/-- C10 witness: a page with an anchor pair yielding exactly one candidate
case link returns the empty list. -/
theorem c10_single_result_discarded_witness :
    (fromEachPageLoop [some "a#", some "https://nkp.gov.np/full_detail/1"]).length ≤ 1 ∧
    from_each_page [some "a#", some "https://nkp.gov.np/full_detail/1"] = [] :=
  ⟨by decide,
   (c10_single_result_discarded [some "a#", some "https://nkp.gov.np/full_detail/1"]).1
     (by decide)⟩

end NKP
